import Mathlib

/-!
Verification of the unique-visitor view counter in `src/app.jsx`.

The embedding models:
  * `getUniqueVisitorId` (app.jsx lines 34-41) over a local-storage state;
  * `trackPageView` (app.jsx lines 93-123) over a document-store state,
    with a fault specification saying which store operation throws, and a
    trace of the store operations that succeeded;
  * the `onSnapshot` success and error callbacks (app.jsx lines 135-151).

JavaScript numbers that can become `NaN` (via `undefined + 1`) are modelled
by `JsNum`; an absent document field is `Option.none`.
-/

namespace ViewCounter

/-- A JavaScript numeric value: an integer or `NaN`. -/
inductive JsNum where
  | num (n : Int)
  | nan
deriving DecidableEq, Repr

/-- `x + 1` where `x` is `doc.data().count` (possibly `undefined`, i.e. `none`):
`undefined + 1` and `NaN + 1` are `NaN`. -/
def add1 : Option JsNum → JsNum
  | some (.num n) => .num (n + 1)
  | some .nan => .nan
  | none => .nan

/-- `x || 0` for `x = doc.data().count`: `undefined`, `NaN` and `0` are falsy. -/
def orZero : Option JsNum → Int
  | some (.num n) => n
  | some .nan => 0
  | none => 0

/-- The `viewCounts/profile` document: a `count` field, a `lastUpdate` field
(each possibly absent), and any unrelated fields present on the record. -/
structure Counter where
  count : Option JsNum
  lastUpdate : Option String
  extra : List (String × String)
deriving DecidableEq, Repr

/-- A `uniqueVisitors/{visitorId}` document (app.jsx lines 115-118). -/
structure VisitorRecord where
  firstVisit : String
  userAgent : String
deriving DecidableEq, Repr

/-- The shared remote document store: the counter document (absent when
`none`) and the visitor documents keyed by visitor id. -/
structure Store where
  counter : Option Counter
  visitors : List (String × VisitorRecord)
deriving DecidableEq, Repr

def emptyStore : Store := { counter := none, visitors := [] }

/-- A store operation performed (successfully) by `trackPageView`. -/
inductive Op where
  | readVisitor (id : String)
  | readCount
  | writeCount (c : JsNum) (ts : String)
  | writeVisitor (id : String) (r : VisitorRecord)
deriving DecidableEq, Repr

def isCountWrite : Op → Bool
  | .writeCount _ _ => true
  | _ => false

def isVisitorWrite : Op → Bool
  | .writeVisitor _ _ => true
  | _ => false

/-- Number of writes to the `viewCounts/profile` document in a trace. -/
def countWrites (ops : List Op) : Nat := (ops.filter isCountWrite).length

/-- Number of visitor-record creations in a trace. -/
def visitorWrites (ops : List Op) : Nat := (ops.filter isVisitorWrite).length

/-- Which of the four store operations of `trackPageView` throws. -/
structure FaultSpec where
  getVisitorFails : Bool := false
  getCountFails : Bool := false
  setCountFails : Bool := false
  setVisitorFails : Bool := false
deriving DecidableEq, Repr

def noFault : FaultSpec := {}

/-- Outcome of one `trackPageView` run: the resulting store, whether the
`catch` block logged an error, and the trace of successful operations. -/
structure RunResult where
  store : Store
  errorLogged : Bool
  ops : List Op
deriving DecidableEq, Repr

/-- `setDoc(countDocRef, {count, lastUpdate}, {merge: true})` (app.jsx
lines 109-112): merge into the existing document, creating it if absent;
fields other than `count` and `lastUpdate` are untouched. -/
def setCounterMerge (c : Option Counter) (n : JsNum) (ts : String) : Counter :=
  match c with
  | none => { count := some n, lastUpdate := some ts, extra := [] }
  | some old => { old with count := some n, lastUpdate := some ts }

/-- The body of `trackPageView` from the first store access (app.jsx lines
100-122), given the visitor id already obtained on line 96.  Every store
operation either throws (per `f`, caught by the surrounding `try`/`catch`,
which logs and returns) or succeeds and is recorded in the trace.
`nowCount` and `nowVisit` are the two `new Date().toISOString()` values of
lines 111 and 116. -/
def trackPageView (f : FaultSpec) (visitorId : String)
    (nowCount nowVisit ua : String) (s : Store) : RunResult :=
  if f.getVisitorFails then { store := s, errorLogged := true, ops := [] }
  else
    match s.visitors.lookup visitorId with
    | some _ => { store := s, errorLogged := false, ops := [.readVisitor visitorId] }
    | none =>
      if f.getCountFails then
        { store := s, errorLogged := true, ops := [.readVisitor visitorId] }
      else
        let currentCount : Option JsNum :=
          match s.counter with
          | some c => c.count
          | none => some (.num 0)
        let newCount := add1 currentCount
        if f.setCountFails then
          { store := s, errorLogged := true,
            ops := [.readVisitor visitorId, .readCount] }
        else
          let s1 : Store := { s with counter := some (setCounterMerge s.counter newCount nowCount) }
          if f.setVisitorFails then
            { store := s1, errorLogged := true,
              ops := [.readVisitor visitorId, .readCount, .writeCount newCount nowCount] }
          else
            let r : VisitorRecord := { firstVisit := nowVisit, userAgent := ua }
            { store := { s1 with visitors := (visitorId, r) :: s1.visitors },
              errorLogged := false,
              ops := [.readVisitor visitorId, .readCount,
                      .writeCount newCount nowCount, .writeVisitor visitorId r] }

/-- Whether the fault specification makes some operation on the path of this run
throw (operations after the visitor-exists check only run for new visitors). -/
def faultHit (f : FaultSpec) (visitorId : String) (s : Store) : Bool :=
  f.getVisitorFails ||
    ((s.visitors.lookup visitorId).isNone &&
      (f.getCountFails || f.setCountFails || f.setVisitorFails))

/-! Local persistent storage and the identity provider. -/

/-- Browser local storage: when unavailable, every access throws. -/
structure LocalStorage where
  avail : Bool
  data : List (String × String)
deriving DecidableEq, Repr

/-- The well-known key used by `getUniqueVisitorId` (app.jsx line 35). -/
def storageKey : String := "siraw_unique_visitor_id"

/-- Replace-or-add the value stored under a key. -/
def lsSet (k v : String) : List (String × String) → List (String × String)
  | [] => [(k, v)]
  | (k', v') :: rest => if k' = k then (k, v) :: rest else (k', v') :: lsSet k v rest

/-- `localStorage.getItem(k)`: `none` plays the JavaScript `null`; throws when
storage is unavailable. -/
def lsGetItem (ls : LocalStorage) (k : String) : Except Unit (Option String) :=
  if ls.avail then .ok (ls.data.lookup k) else .error ()

/-- `localStorage.setItem(k, v)`: throws when storage is unavailable. -/
def lsSetItem (ls : LocalStorage) (k v : String) : Except Unit LocalStorage :=
  if ls.avail then .ok { ls with data := lsSet k v ls.data } else .error ()

/-- The identifier synthesized on app.jsx line 37, from the random component
and the current timestamp. -/
def freshVisitorId (rand : String) (now : Nat) : String :=
  "visitor_" ++ rand ++ "_" ++ toString now

/-- `getUniqueVisitorId` (app.jsx lines 34-41).  `stored` being `null` or the
empty string is falsy, triggering regeneration.  There is no `try`/`catch`:
a storage exception propagates. -/
def getUniqueVisitorId (rand : String) (now : Nat) (ls : LocalStorage) :
    Except Unit (String × LocalStorage × List (String × String)) :=
  let id := freshVisitorId rand now
  let regen : Except Unit (String × LocalStorage × List (String × String)) :=
    match lsSetItem ls storageKey id with
    | .error e => .error e
    | .ok ls' => .ok (id, ls', [(storageKey, id)])
  match lsGetItem ls storageKey with
  | .error e => .error e
  | .ok (some v) => if v = "" then regen else .ok (v, ls, [])
  | .ok none => regen

/-- The whole async `trackPageView` function (app.jsx lines 93-123): the call
to `getUniqueVisitorId` on line 96 sits before the `try` block of line 100,
so a storage exception propagates out of the run. -/
def protocolRun (rand : String) (now : Nat) (f : FaultSpec)
    (nowCount nowVisit ua : String) (ls : LocalStorage) (s : Store) :
    Except Unit (String × LocalStorage × RunResult) :=
  match getUniqueVisitorId rand now ls with
  | .error e => .error e
  | .ok (id, ls', _) => .ok (id, ls', trackPageView f id nowCount nowVisit ua s)

/-! The live-subscription callbacks. -/

/-- The timeout passed to `setTimeout` when the pulse is triggered
(app.jsx line 142). -/
def pulseResetDelayMs : Nat := 500

/-- The `onSnapshot` success callback (app.jsx lines 135-148), as a function
of the snapshot (`docExists`, `countField`) and the currently displayed
`viewCount`.  Returns the new displayed value and, when the pulse is
triggered, the delay after which it is reset. -/
def onSnapshotNext (docExists : Bool) (countField : Option JsNum)
    (viewCount : Int) : Int × Option Nat :=
  if docExists then
    let newCount := orZero countField
    let pulse := if newCount ≠ viewCount ∧ viewCount ≠ 0 then some pulseResetDelayMs else none
    (newCount, pulse)
  else (0, none)

/-- The `onSnapshot` error callback (app.jsx lines 149-151): logs and leaves
the displayed value unchanged. -/
def onSnapshotError (viewCount : Int) : Int × Bool := (viewCount, true)

/-! Sequential runs of the protocol, for the counter invariant. -/

/-- The per-load inputs of one protocol run. -/
structure Visit where
  id : String
  nowCount : String
  nowVisit : String
  ua : String
deriving DecidableEq, Repr

/-- Run the protocol once per visit, sequentially, with no store faults;
collect the concatenated operation trace. -/
def runAllOk : List Visit → Store → Store × List Op
  | [], s => (s, [])
  | v :: rest, s =>
    let r := trackPageView noFault v.id v.nowCount v.nowVisit v.ua s
    let (s', ops) := runAllOk rest r.store
    (s', r.ops ++ ops)

/-- The stored counter value, defaulting to `0` when the document is absent
or the field is not an integer. -/
def globalCount (s : Store) : Int :=
  match s.counter with
  | none => 0
  | some c =>
    match c.count with
    | some (.num n) => n
    | _ => 0

/-- Number of records in `s.visitors` whose key is `id`. -/
def recordsFor (id : String) (s : Store) : Nat :=
  (s.visitors.filter (fun p => p.1 == id)).length

/-- A sequence of consecutive `getUniqueVisitorId` calls (each with its own
random component and timestamp), threading the storage state; returns the
identifiers returned, the final storage, and the writes performed. -/
def runIdCalls : List (String × Nat) → LocalStorage →
    Except Unit (List String × LocalStorage × List (String × String))
  | [], ls => .ok ([], ls, [])
  | (r, n) :: rest, ls =>
    match getUniqueVisitorId r n ls with
    | .error e => .error e
    | .ok (id, ls', w) =>
      match runIdCalls rest ls' with
      | .error e => .error e
      | .ok (ids, ls'', ws) => .ok (id :: ids, ls'', w ++ ws)

/-- Reachability invariant of sequential fault-free runs: the counter is
absent with no visitors, or holds exactly the number of visitor records;
visitor keys are distinct. -/
def Inv (s : Store) : Prop :=
  ((s.counter = none ∧ s.visitors = []) ∨
    ∃ c, s.counter = some c ∧ c.count = some (.num (s.visitors.length))) ∧
  (s.visitors.map Prod.fst).Nodup

/-! ### Helper lemmas -/

theorem lookup_none_filter_nil (id : String) (l : List (String × VisitorRecord))
    (hl : l.lookup id = none) : l.filter (fun p => p.1 == id) = [] := by
  rw [List.lookup_eq_none_iff] at hl
  rw [List.filter_eq_nil_iff]
  intro p hp
  have h := hl p hp
  simp only [bne_iff_ne, ne_eq] at h
  simp only [beq_iff_eq]
  exact fun he => h he.symm

theorem lookup_none_not_mem (id : String) (l : List (String × VisitorRecord))
    (hl : l.lookup id = none) : id ∉ l.map Prod.fst := by
  rw [List.lookup_eq_none_iff] at hl
  intro hmem
  rcases List.mem_map.mp hmem with ⟨p, hp, hfst⟩
  have h := hl p hp
  simp only [bne_iff_ne, ne_eq] at h
  exact h hfst.symm

theorem lsSet_lookup_self (k v : String) :
    ∀ l : List (String × String), (lsSet k v l).lookup k = some v := by
  intro l
  induction l with
  | nil => simp [lsSet, List.lookup]
  | cons p t ih =>
    rcases p with ⟨k', v'⟩
    by_cases hk : k' = k
    · simp [lsSet, hk, List.lookup]
    · have hbeq : (k == k') = false := by
        simp
        exact fun h => hk h.symm
      simp [lsSet, hk, List.lookup, hbeq, ih]

theorem freshVisitorId_ne_empty (r : String) (n : Nat) : freshVisitorId r n ≠ "" := by
  intro h
  have h1 : (freshVisitorId r n).length = 0 := by rw [h]; rfl
  simp [freshVisitorId, String.length_append] at h1
  exact absurd h1.1.1.1 (by decide)

/-! ### Claim theorems -/

/-- C1: a visitor identifier with no existing visitor record and no existing
counter document: after a fault-free protocol run the counter document holds
count 1 with the fresh `lastUpdate` timestamp, exactly one visitor record
for that identifier exists (holding the first-visit timestamp and the
user-agent string), and exactly one counter write was performed. -/
theorem trackPageView_fresh_visitor (id nc nv ua : String) (s : Store)
    (hc : s.counter = none) (hv : s.visitors.lookup id = none) :
    (trackPageView noFault id nc nv ua s).store.counter =
        some { count := some (.num 1), lastUpdate := some nc, extra := [] } ∧
    (trackPageView noFault id nc nv ua s).store.visitors =
        (id, { firstVisit := nv, userAgent := ua }) :: s.visitors ∧
    recordsFor id (trackPageView noFault id nc nv ua s).store = 1 ∧
    countWrites (trackPageView noFault id nc nv ua s).ops = 1 ∧
    (trackPageView noFault id nc nv ua s).errorLogged = false := by
  have hrun : trackPageView noFault id nc nv ua s =
      { store := { counter := some { count := some (.num 1), lastUpdate := some nc, extra := [] },
                   visitors := (id, { firstVisit := nv, userAgent := ua }) :: s.visitors },
        errorLogged := false,
        ops := [.readVisitor id, .readCount, .writeCount (.num 1) nc,
                .writeVisitor id { firstVisit := nv, userAgent := ua }] } := by
    simp [trackPageView, noFault, hv, hc, setCounterMerge, add1]
  refine ⟨by rw [hrun], by rw [hrun], ?_, by rw [hrun]; rfl, by rw [hrun]⟩
  rw [hrun]
  simp [recordsFor, lookup_none_filter_nil id s.visitors hv]

/-- C1 witness: the spec scenario `"v1"` against the empty store. -/
theorem trackPageView_fresh_visitor_witness :
    (trackPageView noFault "v1" "t1" "t2" "ua" emptyStore).store.counter =
        some { count := some (.num 1), lastUpdate := some "t1", extra := [] } ∧
    (trackPageView noFault "v1" "t1" "t2" "ua" emptyStore).store.visitors =
        ("v1", { firstVisit := "t2", userAgent := "ua" }) :: emptyStore.visitors ∧
    recordsFor "v1" (trackPageView noFault "v1" "t1" "t2" "ua" emptyStore).store = 1 ∧
    countWrites (trackPageView noFault "v1" "t1" "t2" "ua" emptyStore).ops = 1 ∧
    (trackPageView noFault "v1" "t1" "t2" "ua" emptyStore).errorLogged = false :=
  trackPageView_fresh_visitor "v1" "t1" "t2" "ua" emptyStore rfl rfl

/-- C2: a visitor identifier whose visitor record already exists: the run
leaves the whole store unchanged and performs zero counter writes and zero
visitor-record writes, whatever the fault specification. -/
theorem trackPageView_existing_visitor_noop (f : FaultSpec) (id nc nv ua : String)
    (s : Store) (r : VisitorRecord) (hv : s.visitors.lookup id = some r) :
    (trackPageView f id nc nv ua s).store = s ∧
    countWrites (trackPageView f id nc nv ua s).ops = 0 ∧
    visitorWrites (trackPageView f id nc nv ua s).ops = 0 := by
  cases hf : f.getVisitorFails <;>
    simp [trackPageView, hf, hv, countWrites, visitorWrites, isCountWrite, isVisitorWrite]

/-- C2 witness: the spec scenario, `"v1"` already recorded and the counter
at 7: the counter is unchanged at 7. -/
theorem trackPageView_existing_visitor_noop_witness :
    (trackPageView noFault "v1" "t1" "t2" "ua"
        { counter := some { count := some (.num 7), lastUpdate := some "t0", extra := [] },
          visitors := [("v1", { firstVisit := "t", userAgent := "u" })] }).store =
      { counter := some { count := some (.num 7), lastUpdate := some "t0", extra := [] },
        visitors := [("v1", { firstVisit := "t", userAgent := "u" })] } ∧
    countWrites (trackPageView noFault "v1" "t1" "t2" "ua"
        { counter := some { count := some (.num 7), lastUpdate := some "t0", extra := [] },
          visitors := [("v1", { firstVisit := "t", userAgent := "u" })] }).ops = 0 ∧
    visitorWrites (trackPageView noFault "v1" "t1" "t2" "ua"
        { counter := some { count := some (.num 7), lastUpdate := some "t0", extra := [] },
          visitors := [("v1", { firstVisit := "t", userAgent := "u" })] }).ops = 0 :=
  trackPageView_existing_visitor_noop noFault "v1" "t1" "t2" "ua" _
    { firstVisit := "t", userAgent := "u" } rfl

/-- C5: with the counter document present, the pulse is triggered (with a
500ms reset) exactly when the incoming value differs from the displayed one
and the displayed one is non-zero; the no-change and initial-state cases
never pulse. -/
theorem onSnapshotNext_pulse_condition (field : Option JsNum) (viewCount : Int) :
    (orZero field ≠ viewCount ∧ viewCount ≠ 0 →
      onSnapshotNext true field viewCount = (orZero field, some 500)) ∧
    ((orZero field = viewCount ∨ viewCount = 0) →
      onSnapshotNext true field viewCount = (orZero field, none)) := by
  constructor
  · intro h
    simp [onSnapshotNext, h.1, h.2, pulseResetDelayMs]
  · rintro (h | h) <;> simp [onSnapshotNext, h]

/-- C5 witness: displayed value 5 — incoming 6 pulses for 500ms, incoming 5
does not; displayed value 0 — incoming 9 does not pulse. -/
theorem onSnapshotNext_pulse_condition_witness :
    onSnapshotNext true (some (.num 6)) 5 = (6, some 500) ∧
    onSnapshotNext true (some (.num 5)) 5 = (5, none) ∧
    onSnapshotNext true (some (.num 9)) 0 = (9, none) :=
  ⟨(onSnapshotNext_pulse_condition (some (.num 6)) 5).1 (by decide),
   (onSnapshotNext_pulse_condition (some (.num 5)) 5).2 (Or.inl (by decide)),
   (onSnapshotNext_pulse_condition (some (.num 9)) 0).2 (Or.inr rfl)⟩

/-- C10: a snapshot of a non-existent counter document sets the displayed
count to 0 whatever it was before; an existing document with an absent or
zero `count` field also displays 0. -/
theorem onSnapshotNext_zero_cases (field : Option JsNum) (v : Int) :
    (onSnapshotNext false field v).1 = 0 ∧
    (field = none ∨ field = some (.num 0) →
      (onSnapshotNext true field v).1 = 0) := by
  constructor
  · simp [onSnapshotNext]
  · rintro (h | h) <;> simp [onSnapshotNext, h, orZero]

/-- C10 witness: document absent with displayed value 5 resets to 0; document
present with absent `count` field displays 0. -/
theorem onSnapshotNext_zero_cases_witness :
    (onSnapshotNext false (some (.num 9)) 5).1 = 0 ∧
    (onSnapshotNext true none 5).1 = 0 :=
  ⟨(onSnapshotNext_zero_cases (some (.num 9)) 5).1,
   (onSnapshotNext_zero_cases none 5).2 (Or.inl rfl)⟩

/-- The counter document after a run is either untouched or the result of
one merge write. -/
theorem trackPageView_counter_shape (f : FaultSpec) (id nc nv ua : String) (s : Store) :
    (trackPageView f id nc nv ua s).store.counter = s.counter ∨
    ∃ n, (trackPageView f id nc nv ua s).store.counter =
      some (setCounterMerge s.counter n nc) := by
  cases h1 : f.getVisitorFails
  · cases hl : s.visitors.lookup id
    · cases h2 : f.getCountFails
      · cases h3 : f.setCountFails
        · right
          refine ⟨add1 (match s.counter with | some c => c.count | none => some (.num 0)), ?_⟩
          cases h4 : f.setVisitorFails <;> simp [trackPageView, h1, hl, h2, h3, h4]
        · left; simp [trackPageView, h1, hl, h2, h3]
      · left; simp [trackPageView, h1, hl, h2]
    · left; simp [trackPageView, h1, hl]
  · left; simp [trackPageView, h1]

/-- C6: every counter write merges: fields of the counter document other
than `count` and `lastUpdate` survive any run unchanged. -/
theorem counter_write_preserves_extra (f : FaultSpec) (id nc nv ua : String)
    (s : Store) (c : Counter) (hc : s.counter = some c) :
    ∃ c', (trackPageView f id nc nv ua s).store.counter = some c' ∧
      c'.extra = c.extra := by
  rcases trackPageView_counter_shape f id nc nv ua s with h | ⟨n, h⟩
  · exact ⟨c, by rw [h, hc], rfl⟩
  · refine ⟨setCounterMerge s.counter n nc, h, ?_⟩
    rw [hc]
    rfl

/-- C6 witness: a counter document carrying an unrelated field keeps it
through a fresh-visitor run that rewrites `count` and `lastUpdate`. -/
theorem counter_write_preserves_extra_witness :
    ∃ c', (trackPageView noFault "v1" "t1" "t2" "ua"
        { counter := some { count := some (.num 3), lastUpdate := some "t0",
                            extra := [("theme", "dark")] },
          visitors := [] }).store.counter = some c' ∧
      c'.extra = Counter.extra { count := some (.num 3), lastUpdate := some "t0",
                                 extra := [("theme", "dark")] } :=
  counter_write_preserves_extra noFault "v1" "t1" "t2" "ua" _ _ rfl

/-- When storage is available, `getUniqueVisitorId` never throws. -/
theorem getUniqueVisitorId_ok_of_avail (rand : String) (now : Nat)
    (ls : LocalStorage) (ha : ls.avail = true) :
    (getUniqueVisitorId rand now ls).isOk = true := by
  unfold getUniqueVisitorId lsGetItem lsSetItem
  simp only [ha, if_true]
  cases hl : ls.data.lookup storageKey with
  | none => rfl
  | some v =>
    by_cases hv : v = "" <;> simp only [hv, reduceIte, if_pos, if_neg] <;> rfl

/-- C7 counterexample: with storage unavailable (every access throws), a call
to `getUniqueVisitorId` does not return a regenerated identifier — it throws,
and the protocol run on lines 93-123 aborts with that error. -/
theorem storage_unavailable_counterexample :
    getUniqueVisitorId "abc" 42 { avail := false, data := [] } = .error () ∧
    (getUniqueVisitorId "abc" 42 { avail := false, data := [] }).isOk = false ∧
    protocolRun "abc" 42 noFault "t1" "t2" "ua" { avail := false, data := [] } emptyStore
      = .error () :=
  ⟨rfl, rfl, rfl⟩

/-- C7 (amended): when local storage is unavailable, `getUniqueVisitorId`
propagates the storage exception instead of regenerating an identifier, and
since its call site (line 96) precedes the `try` block, the whole protocol
run aborts; storage unavailability remains the only
error source of the identity provider (with storage available it never throws). -/
theorem getUniqueVisitorId_unavailable_error (rand : String) (now : Nat)
    (f : FaultSpec) (nc nv ua : String) (ls : LocalStorage) (s : Store)
    (hu : ls.avail = false) :
    getUniqueVisitorId rand now ls = .error () ∧
    protocolRun rand now f nc nv ua ls s = .error () ∧
    (∀ ls₂ : LocalStorage, ls₂.avail = true →
      (getUniqueVisitorId rand now ls₂).isOk = true) := by
  have h1 : getUniqueVisitorId rand now ls = .error () := by
    simp [getUniqueVisitorId, lsGetItem, lsSetItem, hu]
  exact ⟨h1, by simp [protocolRun, h1],
    fun ls₂ ha => getUniqueVisitorId_ok_of_avail rand now ls₂ ha⟩

/-- C7 witness: the amended behavior at a concrete unavailable storage. -/
theorem getUniqueVisitorId_unavailable_error_witness :
    getUniqueVisitorId "r" 7 { avail := false, data := [] } = .error () ∧
    protocolRun "r" 7 noFault "a" "b" "c" { avail := false, data := [] } emptyStore
      = .error () ∧
    (∀ ls₂ : LocalStorage, ls₂.avail = true →
      (getUniqueVisitorId "r" 7 ls₂).isOk = true) :=
  getUniqueVisitorId_unavailable_error "r" 7 noFault "a" "b" "c"
    { avail := false, data := [] } emptyStore rfl

/-- C8: with storage available, a protocol run never propagates a store
error, whatever operations fail: the run returns normally, and an error is
logged exactly when an operation on the path of the run threw; the subscription
error callback logs and leaves the displayed value unchanged. -/
theorem store_errors_swallowed (f : FaultSpec) (rand : String) (now : Nat)
    (id nc nv ua : String) (ls : LocalStorage) (s : Store) (v : Int)
    (ha : ls.avail = true) :
    (protocolRun rand now f nc nv ua ls s).isOk = true ∧
    (trackPageView f id nc nv ua s).errorLogged = faultHit f id s ∧
    onSnapshotError v = (v, true) := by
  refine ⟨?_, ?_, rfl⟩
  · unfold protocolRun
    have h := getUniqueVisitorId_ok_of_avail rand now ls ha
    cases hg : getUniqueVisitorId rand now ls with
    | error e => rw [hg] at h; exact Bool.noConfusion h
    | ok p =>
      rcases p with ⟨pid, pls, pw⟩
      rfl
  · cases hf1 : f.getVisitorFails
    · cases hl : s.visitors.lookup id with
      | some r => simp [trackPageView, faultHit, hf1, hl]
      | none =>
        cases hf2 : f.getCountFails
        · cases hf3 : f.setCountFails
          · cases hf4 : f.setVisitorFails <;>
              simp [trackPageView, faultHit, hf1, hl, hf2, hf3, hf4]
          · simp [trackPageView, faultHit, hf1, hl, hf2, hf3]
        · simp [trackPageView, faultHit, hf1, hl, hf2]
    · simp [trackPageView, faultHit, hf1]

/-- C8 witness: a run whose counter write throws still returns normally with
the error logged, and the error callback at displayed value 5 keeps 5. -/
theorem store_errors_swallowed_witness :
    (protocolRun "r" 7 { setCountFails := true } "t1" "t2" "ua"
        { avail := true, data := [] } emptyStore).isOk = true ∧
    (trackPageView { setCountFails := true } "v1" "t1" "t2" "ua" emptyStore).errorLogged
      = faultHit { setCountFails := true } "v1" emptyStore ∧
    onSnapshotError 5 = (5, true) :=
  store_errors_swallowed { setCountFails := true } "r" 7 "v1" "t1" "t2" "ua"
    { avail := true, data := [] } emptyStore 5 rfl

/-- A call that finds a non-falsy stored identifier returns it and performs
no write. -/
theorem getUniqueVisitorId_hit (r : String) (n : Nat) (ls : LocalStorage) (v : String)
    (ha : ls.avail = true) (hv : ls.data.lookup storageKey = some v) (hne : v ≠ "") :
    getUniqueVisitorId r n ls = .ok (v, ls, []) := by
  simp [getUniqueVisitorId, lsGetItem, ha, hv, hne]

/-- A call that finds nothing stored generates, persists and returns a fresh
identifier. -/
theorem getUniqueVisitorId_miss (r : String) (n : Nat) (ls : LocalStorage)
    (ha : ls.avail = true) (h0 : ls.data.lookup storageKey = none) :
    getUniqueVisitorId r n ls =
      .ok (freshVisitorId r n,
           { ls with data := lsSet storageKey (freshVisitorId r n) ls.data },
           [(storageKey, freshVisitorId r n)]) := by
  simp [getUniqueVisitorId, lsGetItem, lsSetItem, ha, h0]

/-- Once a non-falsy identifier is stored, any sequence of further calls
returns it every time, leaves storage unchanged and performs no write. -/
theorem runIdCalls_stable (v : String) (hne : v ≠ "") :
    ∀ (calls : List (String × Nat)) (ls : LocalStorage), ls.avail = true →
      ls.data.lookup storageKey = some v →
      runIdCalls calls ls = .ok (List.replicate calls.length v, ls, []) := by
  intro calls
  induction calls with
  | nil => intro ls _ _; rfl
  | cons p rest ih =>
    rcases p with ⟨r, n⟩
    intro ls ha hv
    rw [runIdCalls, getUniqueVisitorId_hit r n ls v ha hv hne]
    dsimp only
    rw [ih ls ha hv]
    simp [List.replicate_succ]

/-- C4: with storage available and the key initially absent, a sequence of
calls to `getUniqueVisitorId` all return the identifier synthesized by the
first call; the first call performs the single storage write (under the key
`siraw_unique_visitor_id`) and no later call writes. -/
theorem identity_provider_stable (rand : String) (now : Nat)
    (rest : List (String × Nat)) (ls : LocalStorage)
    (ha : ls.avail = true) (h0 : ls.data.lookup storageKey = none) :
    runIdCalls ((rand, now) :: rest) ls =
      .ok (List.replicate (rest.length + 1) (freshVisitorId rand now),
           { ls with data := lsSet storageKey (freshVisitorId rand now) ls.data },
           [(storageKey, freshVisitorId rand now)]) := by
  rw [runIdCalls, getUniqueVisitorId_miss rand now ls ha h0]
  dsimp only
  rw [runIdCalls_stable (freshVisitorId rand now) (freshVisitorId_ne_empty rand now) rest
    { ls with data := lsSet storageKey (freshVisitorId rand now) ls.data } ha
    (lsSet_lookup_self storageKey (freshVisitorId rand now) ls.data)]
  simp [List.replicate_succ]

/-- C4 witness: two consecutive calls on fresh storage both return the
identifier of the first call, with exactly one write. -/
theorem identity_provider_stable_witness :
    runIdCalls [("r", 5), ("q", 6)] { avail := true, data := [] } =
      .ok (List.replicate ([("q", 6)].length + 1) (freshVisitorId "r" 5),
           { avail := true, data := lsSet storageKey (freshVisitorId "r" 5) [] },
           [(storageKey, freshVisitorId "r" 5)]) :=
  identity_provider_stable "r" 5 [("q", 6)] { avail := true, data := [] } rfl rfl

/-- C9: for a new visitor the incremented counter is written strictly before
the visitor record, and the pair is not atomic: when the record write throws
after the counter write succeeded, the counter stays incremented while no
record exists, the error is only logged, and a later run with the same
identifier increments the counter again. -/
theorem counter_incremented_before_record (id nc nv ua nc2 nv2 ua2 : String)
    (s : Store) (c : Counter) (n : Int)
    (hv : s.visitors.lookup id = none)
    (hc : s.counter = some c) (hn : c.count = some (.num n)) :
    (trackPageView noFault id nc nv ua s).ops =
      [.readVisitor id, .readCount, .writeCount (.num (n + 1)) nc,
       .writeVisitor id { firstVisit := nv, userAgent := ua }] ∧
    (trackPageView { setVisitorFails := true } id nc nv ua s).store.counter =
      some { count := some (.num (n + 1)), lastUpdate := some nc, extra := c.extra } ∧
    (trackPageView { setVisitorFails := true } id nc nv ua s).store.visitors = s.visitors ∧
    (trackPageView { setVisitorFails := true } id nc nv ua s).errorLogged = true ∧
    countWrites (trackPageView { setVisitorFails := true } id nc nv ua s).ops = 1 ∧
    visitorWrites (trackPageView { setVisitorFails := true } id nc nv ua s).ops = 0 ∧
    (trackPageView noFault id nc2 nv2 ua2
        (trackPageView { setVisitorFails := true } id nc nv ua s).store).store.counter =
      some { count := some (.num (n + 2)), lastUpdate := some nc2, extra := c.extra } := by
  have hrun1 : trackPageView { setVisitorFails := true } id nc nv ua s =
      { store := { counter := some { count := some (.num (n + 1)), lastUpdate := some nc,
                                     extra := c.extra },
                   visitors := s.visitors },
        errorLogged := true,
        ops := [.readVisitor id, .readCount, .writeCount (.num (n + 1)) nc] } := by
    simp [trackPageView, hv, hc, hn, setCounterMerge, add1]
  have hrun0 : (trackPageView noFault id nc nv ua s).ops =
      [.readVisitor id, .readCount, .writeCount (.num (n + 1)) nc,
       .writeVisitor id { firstVisit := nv, userAgent := ua }] := by
    simp [trackPageView, noFault, hv, hc, hn, setCounterMerge, add1]
  refine ⟨hrun0, by rw [hrun1], by rw [hrun1], by rw [hrun1], by rw [hrun1]; rfl,
    by rw [hrun1]; rfl, ?_⟩
  rw [hrun1]
  simp [trackPageView, noFault, hv, setCounterMerge, add1]
  ring_nf

/-- C9 witness: counter at 0, fresh visitor `"v1"`, record write throws:
counter reaches 1 with no record; the retry brings it to 2. -/
theorem counter_incremented_before_record_witness :
    (trackPageView noFault "v1" "t1" "t2" "ua"
        { counter := some { count := some (.num 0), lastUpdate := none, extra := [] },
          visitors := [] }).ops =
      [.readVisitor "v1", .readCount, .writeCount (.num (0 + 1)) "t1",
       .writeVisitor "v1" { firstVisit := "t2", userAgent := "ua" }] ∧
    (trackPageView { setVisitorFails := true } "v1" "t1" "t2" "ua"
        { counter := some { count := some (.num 0), lastUpdate := none, extra := [] },
          visitors := [] }).store.counter =
      some { count := some (.num (0 + 1)), lastUpdate := some "t1", extra := [] } ∧
    (trackPageView { setVisitorFails := true } "v1" "t1" "t2" "ua"
        { counter := some { count := some (.num 0), lastUpdate := none, extra := [] },
          visitors := [] }).store.visitors =
      Store.visitors { counter := some { count := some (.num 0), lastUpdate := none, extra := [] },
                       visitors := [] } ∧
    (trackPageView { setVisitorFails := true } "v1" "t1" "t2" "ua"
        { counter := some { count := some (.num 0), lastUpdate := none, extra := [] },
          visitors := [] }).errorLogged = true ∧
    countWrites (trackPageView { setVisitorFails := true } "v1" "t1" "t2" "ua"
        { counter := some { count := some (.num 0), lastUpdate := none, extra := [] },
          visitors := [] }).ops = 1 ∧
    visitorWrites (trackPageView { setVisitorFails := true } "v1" "t1" "t2" "ua"
        { counter := some { count := some (.num 0), lastUpdate := none, extra := [] },
          visitors := [] }).ops = 0 ∧
    (trackPageView noFault "v1" "t3" "t4" "ua2"
        (trackPageView { setVisitorFails := true } "v1" "t1" "t2" "ua"
          { counter := some { count := some (.num 0), lastUpdate := none, extra := [] },
            visitors := [] }).store).store.counter =
      some { count := some (.num (0 + 2)), lastUpdate := some "t3", extra := [] } :=
  counter_incremented_before_record "v1" "t1" "t2" "ua" "t3" "t4" "ua2"
    { counter := some { count := some (.num 0), lastUpdate := none, extra := [] },
      visitors := [] }
    { count := some (.num 0), lastUpdate := none, extra := [] } 0 rfl rfl rfl

/-- One fault-free run preserves the reachability invariant, and grows the
visitor list by exactly the number of record writes it performed. -/
theorem inv_preserved (v : Visit) (s : Store) (h : Inv s) :
    Inv (trackPageView noFault v.id v.nowCount v.nowVisit v.ua s).store ∧
    (trackPageView noFault v.id v.nowCount v.nowVisit v.ua s).store.visitors.length =
      s.visitors.length +
        visitorWrites (trackPageView noFault v.id v.nowCount v.nowVisit v.ua s).ops := by
  rcases h with ⟨hcnt, hnodup⟩
  cases hl : s.visitors.lookup v.id with
  | some r =>
    have hrun : trackPageView noFault v.id v.nowCount v.nowVisit v.ua s =
        { store := s, errorLogged := false, ops := [.readVisitor v.id] } := by
      simp [trackPageView, noFault, hl]
    rw [hrun]
    exact ⟨⟨hcnt, hnodup⟩, by simp [visitorWrites, isVisitorWrite]⟩
  | none =>
    have hmem := lookup_none_not_mem v.id s.visitors hl
    rcases hcnt with ⟨hc0, hv0⟩ | ⟨c, hc, hcount⟩
    · have hrun : trackPageView noFault v.id v.nowCount v.nowVisit v.ua s =
          { store := { counter := some { count := some (.num 1),
                                         lastUpdate := some v.nowCount, extra := [] },
                       visitors := (v.id, { firstVisit := v.nowVisit, userAgent := v.ua })
                         :: s.visitors },
            errorLogged := false,
            ops := [.readVisitor v.id, .readCount, .writeCount (.num 1) v.nowCount,
                    .writeVisitor v.id { firstVisit := v.nowVisit, userAgent := v.ua }] } := by
        simp [trackPageView, noFault, hl, hc0, setCounterMerge, add1]
      rw [hrun]
      refine ⟨⟨Or.inr ⟨_, rfl, ?_⟩, ?_⟩, ?_⟩
      · simp [hv0]
      · simp [hv0]
      · simp [hv0, visitorWrites, isVisitorWrite]
    · have hrun : trackPageView noFault v.id v.nowCount v.nowVisit v.ua s =
          { store := { counter := some { count := some (.num (s.visitors.length + 1)),
                                         lastUpdate := some v.nowCount, extra := c.extra },
                       visitors := (v.id, { firstVisit := v.nowVisit, userAgent := v.ua })
                         :: s.visitors },
            errorLogged := false,
            ops := [.readVisitor v.id, .readCount,
                    .writeCount (.num (s.visitors.length + 1)) v.nowCount,
                    .writeVisitor v.id { firstVisit := v.nowVisit, userAgent := v.ua }] } := by
        simp [trackPageView, noFault, hl, hc, hcount, setCounterMerge, add1]
      rw [hrun]
      refine ⟨⟨Or.inr ⟨_, rfl, ?_⟩, ?_⟩, ?_⟩
      · simp
      · rw [List.map_cons, List.nodup_cons]
        exact ⟨hmem, hnodup⟩
      · simp [visitorWrites, isVisitorWrite]

theorem visitorWrites_append (a b : List Op) :
    visitorWrites (a ++ b) = visitorWrites a + visitorWrites b := by
  simp [visitorWrites, List.filter_append]

theorem runAllOk_cons (v : Visit) (rest : List Visit) (s : Store) :
    runAllOk (v :: rest) s =
      ((runAllOk rest (trackPageView noFault v.id v.nowCount v.nowVisit v.ua s).store).1,
       (trackPageView noFault v.id v.nowCount v.nowVisit v.ua s).ops ++
         (runAllOk rest (trackPageView noFault v.id v.nowCount v.nowVisit v.ua s).store).2) :=
  rfl

/-- Sequential fault-free runs preserve the invariant and grow the visitor
list by the total number of record writes. -/
theorem runAllOk_inv (visits : List Visit) :
    ∀ s : Store, Inv s →
      Inv (runAllOk visits s).1 ∧
      (runAllOk visits s).1.visitors.length =
        s.visitors.length + visitorWrites (runAllOk visits s).2 := by
  induction visits with
  | nil => intro s h; exact ⟨h, by simp [runAllOk, visitorWrites]⟩
  | cons v rest ih =>
    intro s h
    have hstep := inv_preserved v s h
    have hrest := ih _ hstep.1
    rw [runAllOk_cons]
    refine ⟨hrest.1, ?_⟩
    rw [visitorWrites_append, hrest.2, hstep.2]
    ring

theorem globalCount_of_inv (s : Store) (h : Inv s) :
    globalCount s = s.visitors.length := by
  rcases h.1 with ⟨hc, hv⟩ | ⟨c, hc, hcount⟩
  · simp [globalCount, hc, hv]
  · simp [globalCount, hc, hcount]

/-- C3: over any sequence of sequential fault-free protocol runs from the
initial state (counter document absent, no visitor records), after the runs
the stored counter equals the number of visitor-record creations performed,
which is the number of distinct visitor records in the store. -/
theorem globalCount_eq_visitor_creations (visits : List Visit) :
    globalCount (runAllOk visits emptyStore).1 =
      (visitorWrites (runAllOk visits emptyStore).2 : Int) ∧
    globalCount (runAllOk visits emptyStore).1 =
      ((runAllOk visits emptyStore).1.visitors.length : Int) ∧
    ((runAllOk visits emptyStore).1.visitors.map Prod.fst).Nodup := by
  have hinv0 : Inv emptyStore := ⟨Or.inl ⟨rfl, rfl⟩, by simp [emptyStore]⟩
  have h := runAllOk_inv visits emptyStore hinv0
  have hg := globalCount_of_inv _ h.1
  have hlen := h.2
  refine ⟨?_, hg, h.1.2⟩
  rw [hg, hlen]
  simp [emptyStore]

end ViewCounter
